import Mathlib

/-!
Shallow embedding of the AIS ingestion pipeline implemented in
src/pyrate/algorithms/aisparser.py, together with a verification of the
behaviours its specification describes.  Pure functions of the source are
translated to Lean functions; exceptions become an explicit error type;
the stateful dispatcher becomes explicit state passing.  The domain
validity predicates live in the external collaborator module pyrate.utils,
which is not part of this source tree, so the definitions that use them
are parametric in a record of predicates.
-/

deriving instance DecidableEq for Except

namespace Pyrate

/-- The Python exceptions the module can raise.  Messages are abbreviated
renderings of the CPython texts; keyError carries the missing dictionary
key and nameError the unresolved identifier. -/
inductive PyErr where
  | valueError (msg : String)
  | keyError (key : String)
  | attributeError (msg : String)
  | nameError (msg : String)
  | runtimeError (msg : String)
  | indexError (msg : String)
deriving Repr, DecidableEq

/-- Whether an Except value is a success. -/
def isOkE {α : Type} : Except PyErr α → Bool
  | .ok _ => true
  | .error _ => false

/-- Whether an exception is a ValueError: the only kind the dispatcher
catches (lines 247 and 258 of the source). -/
def isValueError : PyErr → Bool
  | .valueError _ => true
  | _ => false

def digitsToNat (cs : List Char) : Nat :=
  cs.foldl (fun a c => a * 10 + (c.toNat - 48)) 0

def digitsVal (cs : List Char) : Option Nat :=
  if !cs.isEmpty && cs.all Char.isDigit then some (digitsToNat cs) else none

/-- Python int(s) restricted to the numeral forms relevant to AIS data:
an optional sign followed by decimal digits (whitespace and underscore
grouping are outside the model). -/
def str_to_int (s : String) : Option Int :=
  match s.toList with
  | '-' :: cs => (digitsVal cs).map (fun n => -(n : Int))
  | '+' :: cs => (digitsVal cs).map (fun n => (n : Int))
  | cs => (digitsVal cs).map (fun n => (n : Int))

/-- int_or_null (lines 19-23): empty string maps to null, otherwise the
string must be an integer numeral. -/
def int_or_null (s : String) : Except PyErr (Option Int) :=
  if s.length = 0 then .ok none
  else match str_to_int s with
    | some n => .ok (some n)
    | none => .error (.valueError ("invalid literal for int with base 10: " ++ s))

/-- A Python float value occurring in this pipeline.  The pipeline only
ever parses decimal text into floats and compares the results against
fixed decimal bounds, so the values are exact decimals, modelled as the
scaled integer mant / 10 ^ exp. -/
structure PyFloat where
  mant : Int
  exp : Nat
deriving Repr, DecidableEq

/-- Numeric order on the modelled decimals, by cross multiplication. -/
def PyFloat.le (a b : PyFloat) : Bool :=
  a.mant * (10 : Int) ^ b.exp ≤ b.mant * (10 : Int) ^ a.exp

def PyFloat.lt (a b : PyFloat) : Bool :=
  a.mant * (10 : Int) ^ b.exp < b.mant * (10 : Int) ^ a.exp

def PyFloat.neg (a : PyFloat) : PyFloat := ⟨-a.mant, a.exp⟩

/-- Decimal numerals: an integer part, optionally followed by a point and
a fractional part. -/
def decimalVal (cs : List Char) : Option PyFloat :=
  let ip := cs.takeWhile Char.isDigit
  let rest := cs.drop ip.length
  match rest with
  | [] => if ip.isEmpty then none else some ⟨(digitsToNat ip : Nat), 0⟩
  | '.' :: fp =>
    if fp.all Char.isDigit && !(ip.isEmpty && fp.isEmpty) then
      some ⟨((digitsToNat ip * 10 ^ fp.length + digitsToNat fp : Nat) : Int), fp.length⟩
    else none
  | _ => none

/-- Python float(s) restricted to plain decimal forms (exponents and the
infinity and nan spellings are outside the model). -/
def str_to_float (s : String) : Option PyFloat :=
  match s.toList with
  | '-' :: cs => (decimalVal cs).map PyFloat.neg
  | '+' :: cs => decimalVal cs
  | cs => decimalVal cs

/-- float_or_null (lines 25-29): empty string or the literal text None
maps to null, otherwise the string must be numeric. -/
def float_or_null (s : String) : Except PyErr (Option PyFloat) :=
  if s.length = 0 || s == "None" then .ok none
  else match str_to_float s with
    | some q => .ok (some q)
    | none => .error (.valueError ("could not convert string to float: " ++ s))

/-- imostr (lines 31-34): registry strings longer than 20 characters
become null.  parse_raw_row does not call it: the IMO column is converted
with int_or_null (line 125). -/
def imostr (s : String) : Option String :=
  if s.length > 20 then none else some s

/-- longstr (lines 36-39).  For a string longer than 255 characters the
source evaluates s.substring(0, 254); Python strings have no substring
method, so that call raises an AttributeError instead of truncating. -/
def longstr (s : String) : Except PyErr String :=
  if s.length > 255 then
    .error (.attributeError "str object has no attribute substring")
  else .ok s

structure DateTime where
  year : Nat
  month : Nat
  day : Nat
  hour : Nat
  minute : Nat
  second : Nat
deriving Repr, DecidableEq

def isLeap (y : Nat) : Bool :=
  y % 4 == 0 && (y % 100 != 0 || y % 400 == 0)

def daysInMonth (y m : Nat) : Nat :=
  if m == 2 then (if isLeap y then 29 else 28)
  else if m == 4 || m == 6 || m == 9 || m == 11 then 30
  else 31

/-- parse_timestamp (lines 16-17): datetime.strptime with the fixed
format YYYYMMDD underscore HHMMSS.  The embedding models the canonical
fixed-width form together with the calendar range checks the datetime
constructor performs; any other input fails with a ValueError. -/
def parse_timestamp (s : String) : Except PyErr DateTime :=
  let bad : Except PyErr DateTime :=
    .error (.valueError ("time data " ++ s ++ " does not match format Ymd_HMS"))
  match s.toList with
  | [y1, y2, y3, y4, mo1, mo2, d1, d2, sep, h1, h2, mi1, mi2, se1, se2] =>
    if ([y1, y2, y3, y4, mo1, mo2, d1, d2, h1, h2, mi1, mi2, se1, se2].all Char.isDigit)
        && sep == '_' then
      let y := digitsToNat [y1, y2, y3, y4]
      let mo := digitsToNat [mo1, mo2]
      let d := digitsToNat [d1, d2]
      let h := digitsToNat [h1, h2]
      let mi := digitsToNat [mi1, mi2]
      let se := digitsToNat [se1, se2]
      if 1 ≤ mo ∧ mo ≤ 12 ∧ 1 ≤ d ∧ d ≤ daysInMonth y mo ∧ h ≤ 23 ∧ mi ≤ 59 ∧ se ≤ 59 then
        .ok ⟨y, mo, d, h, mi, se⟩
      else bad
    else bad
  | _ => bad

-- column name constants (lines 49-65)
def MMSI : String := "MMSI"
def TIME : String := "Time"
def MESSAGE_ID : String := "Message_ID"
def NAV_STATUS : String := "Navigational_status"
def SOG : String := "SOG"
def LONGITUDE : String := "Longitude"
def LATITUDE : String := "Latitude"
def COG : String := "COG"
def HEADING : String := "Heading"
def IMO : String := "IMO"
def DRAUGHT : String := "Draught"
def DEST : String := "Destination"
def VESSEL_NAME : String := "Vessel_Name"
def ETA_MONTH : String := "ETA_month"
def ETA_DAY : String := "ETA_day"
def ETA_HOUR : String := "ETA_hour"
def ETA_MINUTE : String := "ETA_minute"

/-- The 17 schema columns (lines 69-85). -/
def AIS_CSV_COLUMNS : List String :=
  [MMSI, TIME, MESSAGE_ID, NAV_STATUS, SOG, LONGITUDE, LATITUDE, COG, HEADING,
   IMO, DRAUGHT, DEST, VESSEL_NAME, ETA_MONTH, ETA_DAY, ETA_HOUR, ETA_MINUTE]

/-- The tag names used in the XML format, positionally matching
AIS_CSV_COLUMNS (lines 89-106). -/
def AIS_XML_COLNAMES : List String :=
  ["mmsi", "date_time", "msg_type", "nav_status", "sog", "lon", "lat", "cog",
   "heading", "imo", "draught", "destination", "vessel_name", "eta_month",
   "eta_day", "eta_hour", "eta_minute"]

/-- A raw record: the Python dict from column name to raw text.  Keys may
be absent (the XML reader omits fields that do not occur in a record). -/
abbrev RawRow := List (String × String)

/-- Python d[k]: the stored value, or a KeyError naming the key. -/
def dictGet (d : RawRow) (k : String) : Except PyErr String :=
  match d.lookup k with
  | some v => .ok v
  | none => .error (.keyError k)

/-- Python d[k] = v: insertion, overwriting any previous binding. -/
def dictInsert (d : RawRow) (k v : String) : RawRow :=
  d.filter (fun p => p.1 != k) ++ [(k, v)]

/-- The converted row built by parse_raw_row (lines 112-133): every
schema column, typed.  The source tag is only added afterwards by run
(line 246), so parse_raw_row leaves it none. -/
structure TypedRow where
  mmsi : Option Int
  time : DateTime
  message_id : Option Int
  nav_status : Option Int
  sog : Option PyFloat
  longitude : Option PyFloat
  latitude : Option PyFloat
  cog : Option PyFloat
  heading : Option PyFloat
  imo : Option Int
  draught : Option PyFloat
  dest : String
  vessel_name : String
  eta_month : Option Int
  eta_day : Option Int
  eta_hour : Option Int
  eta_minute : Option Int
  source : Option Int
deriving Repr, DecidableEq

/-- parse_raw_row (lines 112-133): each statement looks the column up in
the raw dict (KeyError when absent) and converts it; the first exception
aborts the whole row, in source statement order. -/
def parse_raw_row (row : RawRow) : Except PyErr TypedRow := do
  let vMmsi ← int_or_null (← dictGet row MMSI)
  let vTime ← parse_timestamp (← dictGet row TIME)
  let vMsgId ← int_or_null (← dictGet row MESSAGE_ID)
  let vNav ← int_or_null (← dictGet row NAV_STATUS)
  let vSog ← float_or_null (← dictGet row SOG)
  let vLon ← float_or_null (← dictGet row LONGITUDE)
  let vLat ← float_or_null (← dictGet row LATITUDE)
  let vCog ← float_or_null (← dictGet row COG)
  let vHeading ← float_or_null (← dictGet row HEADING)
  let vImo ← int_or_null (← dictGet row IMO)
  let vDraught ← float_or_null (← dictGet row DRAUGHT)
  let vDest ← longstr (← dictGet row DEST)
  let vVessel ← longstr (← dictGet row VESSEL_NAME)
  let vEtaMo ← int_or_null (← dictGet row ETA_MONTH)
  let vEtaDay ← int_or_null (← dictGet row ETA_DAY)
  let vEtaHour ← int_or_null (← dictGet row ETA_HOUR)
  let vEtaMin ← int_or_null (← dictGet row ETA_MINUTE)
  return { mmsi := vMmsi, time := vTime, message_id := vMsgId, nav_status := vNav,
           sog := vSog, longitude := vLon, latitude := vLat, cog := vCog,
           heading := vHeading, imo := vImo, draught := vDraught, dest := vDest,
           vessel_name := vVessel, eta_month := vEtaMo, eta_day := vEtaDay,
           eta_hour := vEtaHour, eta_minute := vEtaMin, source := none }

/-- The domain validity predicates of pyrate.utils, an external
collaborator outside this source tree; every definition that needs them
is parametric in this record.  Fields that the source only ever applies
to an unwrapped non-null value take the bare value; fields the source
applies to a possibly-null value take an Option. -/
structure Utils where
  valid_mmsi : Option Int → Bool
  valid_message_id : Option Int → Bool
  valid_imo : Int → Bool
  valid_longitude : Option PyFloat → Bool
  valid_latitude : Option PyFloat → Bool
  valid_navigational_status : Int → Bool
  is_valid_sog : PyFloat → Bool
  is_valid_cog : PyFloat → Bool
  is_valid_heading : PyFloat → Bool

/-- set_null_on_fail (lines 41-43): null a non-null value that fails its
test, otherwise leave it alone. -/
def set_null_on_fail {α : Type} (v : Option α) (test : α → Bool) : Option α :=
  match v with
  | none => none
  | some x => if test x then some x else none

/-- check_imo (lines 45-46): a null registry number passes; a non-null
one must satisfy the external check. -/
def check_imo (u : Utils) (imo : Option Int) : Bool :=
  match imo with
  | none => true
  | some i => u.valid_imo i

/-- CONTAINS_LAT_LON (line 135): the message types that must carry a
position. -/
def CONTAINS_LAT_LON : List Int := [1, 2, 3, 4, 9, 11, 17, 18, 19, 21, 27]

/-- The membership test row[MESSAGE_ID] in CONTAINS_LAT_LON (line 142);
a null message id is not a member. -/
def inContainsLatLon (m : Option Int) : Bool :=
  match m with
  | some v => CONTAINS_LAT_LON.contains v
  | none => false

/-- The four soft checks of validate_row (lines 151-154). -/
def soft_checks (u : Utils) (row : TypedRow) : TypedRow :=
  { row with
    nav_status := set_null_on_fail row.nav_status u.valid_navigational_status
    sog := set_null_on_fail row.sog u.is_valid_sog
    cog := set_null_on_fail row.cog u.is_valid_cog
    heading := set_null_on_fail row.heading u.is_valid_heading }

/-- validate_row (lines 137-155).  The source mutates the row in place;
the net effect on the success path is captured by the returned record,
and on the failure paths the row is returned to the caller unchanged
(both raises happen before any mutation). -/
def validate_row (u : Utils) (row : TypedRow) : Except PyErr TypedRow :=
  if !(u.valid_mmsi row.mmsi) || !(u.valid_message_id row.message_id)
      || !(check_imo u row.imo) then
    .error (.valueError "Row invalid")
  else if inContainsLatLon row.message_id then
    if !(u.valid_longitude row.longitude && u.valid_latitude row.latitude) then
      .error (.valueError "Row invalid (lat,long)")
    else .ok (soft_checks u row)
  else .ok (soft_checks u { row with longitude := none, latitude := none })

/-- get_data_source (lines 157-158): the data source inferred from a file
name. -/
def get_data_source (name : String) : Int := 0

/-- xml_name_to_csv (lines 108-110), as the positional lookup from XML
tag name to schema column name; none when the tag is not an XML column
name (the only call site guards membership, line 307). -/
def xml_name_to_csv (name : String) : Option String :=
  (AIS_XML_COLNAMES.zip AIS_CSV_COLUMNS).lookup name

/-- The loop of readxml (lines 298-308) over the stream of element end
events, each a tag with its optional text.  An aismessage tag yields the
accumulated record and resets the accumulator; a known column tag with
non-null text is stored; anything else is ignored.  Elements after the
last terminator are discarded, as in the source. -/
def readxml_loop : List (String × Option String) → RawRow → List RawRow
  | [], _ => []
  | (tag, text) :: rest, current =>
    if tag == "aismessage" then current :: readxml_loop rest []
    else
      match text with
      | some t =>
        match xml_name_to_csv tag with
        | some csvName => readxml_loop rest (dictInsert current csvName t)
        | none => readxml_loop rest current
      | none => readxml_loop rest current

/-- readxml (lines 298-308). -/
def readxml (elems : List (String × Option String)) : List RawRow :=
  readxml_loop elems []

/-- Python list.index restricted to its successful or missing outcomes:
the position of the first occurrence, or none. -/
def list_index (l : List String) (c : String) : Option Nat :=
  match l with
  | [] => none
  | x :: xs => if x == c then some 0 else (list_index xs c).map (fun i => i + 1)

/-- The header loop of readcsv (lines 285-290): look every schema column
up in the header, failing with the RuntimeError of line 290 at the first
column that is missing. -/
def buildIndices (header : List String) : List String → Except PyErr (List (String × Nat))
  | [] => .ok []
  | c :: rest =>
    match list_index header c with
    | some i =>
      match buildIndices header rest with
      | .ok tl => .ok ((c, i) :: tl)
      | .error e => .error e
    | none =>
      .error (.runtimeError ("Missing columns in file header: " ++ c ++ " is not in list"))

/-- The projection of one data line onto the schema (lines 293-296); an
index beyond the end of the line is Python list indexing and raises an
IndexError while the row is being produced. -/
def projectRow (indices : List (String × Nat)) (line : List String) : Except PyErr RawRow :=
  indices.mapM (fun ci =>
    match line.get? ci.2 with
    | some v => .ok (ci.1, v)
    | none => .error (.indexError "list index out of range"))

/-- readcsv (lines 282-296) on a file abstracted as its split header line
plus its split data lines.  The reader is a generator: the header error
surfaces when the dispatcher first iterates it, and each data line is
produced (or raises) lazily, which the list of per-row results models. -/
def readcsv (header : List String) (lines : List (List String)) :
    Except PyErr (List (Except PyErr RawRow)) :=
  match buildIndices header AIS_CSV_COLUMNS with
  | .ok indices => .ok (lines.map (projectRow indices))
  | .error e => .error e

/-- An input file as the dispatcher sees it: parsed content of one of the
two supported shapes. -/
inductive FileContent where
  | csv (header : List String) (lines : List (List String))
  | xml (elems : List (String × Option String))
deriving Repr, DecidableEq

structure InputFile where
  name : String
  ext : String
  content : FileContent
deriving Repr, DecidableEq

/-- One row of the sources table: the File Ingestion Record written at
line 262. -/
structure SourceRec where
  filename : String
  ext : String
  invalid : Nat
  clean : Nat
  dirty : Nat
deriving Repr, DecidableEq

/-- The observable state of a run: the sources table, the two queues
(modelled as the lists of enqueued records), the per-file error logs
(file name with its written rows, header row first), and whether each
sink currently has its indices. -/
structure RunState where
  sources : List SourceRec
  cleanq : List TypedRow
  dirtyq : List TypedRow
  logs : List (String × List (List String))
  cleanIndices : Bool
  dirtyIndices : Bool
deriving Repr, DecidableEq

/-- The header row written to each error log (line 221). -/
def headerRow : List String := AIS_CSV_COLUMNS ++ ["Error_Message"]

/-- The row written to the error log for a rejected raw record
(line 249): the raw value of every schema column.  Looking a missing
column up is a KeyError, which the dispatcher does not catch. -/
def logCells (row : RawRow) : Except PyErr (List String) :=
  AIS_CSV_COLUMNS.mapM (fun c => dictGet row c)

/-- The message text appended to a logged row (line 249). -/
def errText : PyErr → String
  | .valueError m => m
  | .keyError k => k
  | .attributeError m => m
  | .nameError m => m
  | .runtimeError m => m
  | .indexError m => m

/-- The per-file accumulator of the dispatcher loop: the three counters
(lines 224-226), the records enqueued from this file, and the error log
rows written for it. -/
structure FileAcc where
  clean_ctr : Nat
  dirty_ctr : Nat
  invalid_ctr : Nat
  newClean : List TypedRow
  newDirty : List TypedRow
  logRows : List (List String)
deriving Repr, DecidableEq

def initAcc : FileAcc := ⟨0, 0, 0, [], [], []⟩

/-- The record loop of run (lines 241-260).  A ValueError from parsing is
contained: the raw row plus message goes to the error log and the invalid
counter is bumped.  Any other exception from parsing, and any exception
raised while producing a row or while writing the log row, propagates and
aborts the loop with the state accumulated so far.  A parsed row is
tagged with the source (line 246) and routed by validate_row: clean queue
on success, dirty queue on a ValueError. -/
def processRows (u : Utils) (src : Int) :
    List (Except PyErr RawRow) → FileAcc → FileAcc × Option PyErr
  | [], acc => (acc, none)
  | .error e :: _, acc => (acc, some e)
  | .ok raw :: rest, acc =>
    match parse_raw_row raw with
    | .ok conv0 =>
      let conv := { conv0 with source := some src }
      match validate_row u conv with
      | .ok v =>
        processRows u src rest
          { acc with clean_ctr := acc.clean_ctr + 1, newClean := acc.newClean ++ [v] }
      | .error _ =>
        processRows u src rest
          { acc with dirty_ctr := acc.dirty_ctr + 1, newDirty := acc.newDirty ++ [conv] }
    | .error e =>
      if isValueError e then
        match logCells raw with
        | .ok cells =>
          processRows u src rest
            { acc with invalid_ctr := acc.invalid_ctr + 1,
                       logRows := acc.logRows ++ [cells ++ [errText e]] }
        | .error ke => (acc, some ke)
      else (acc, some e)

/-- The reader selection of lines 229-235: readcsv for .csv, readxml for
.xml, none for an unsupported extension.  The model assumes the parsed
content matches the extension; a mismatch (unreachable for the inputs
the claims are about) is reported as a RuntimeError. -/
def selectRows (f : InputFile) : Option (Except PyErr (List (Except PyErr RawRow))) :=
  if f.ext == ".csv" then
    some (match f.content with
      | .csv header lines => readcsv header lines
      | .xml _ => .error (.runtimeError "malformed stream"))
  else if f.ext == ".xml" then
    some (match f.content with
      | .xml elems => .ok ((readxml elems).map (fun r => .ok r))
      | .csv _ _ => .error (.runtimeError "malformed stream"))
  else none

/-- The body of the per-file loop of run (lines 208-265).  A file whose
name already has a File Ingestion Record is skipped before anything else
happens (lines 210-214).  Otherwise the error log is opened and its
header written (lines 219-221), the reader is selected (unsupported
extensions skip the file, lines 229-235, after the log was opened), and
the record loop runs.  Only when the loop finishes without an uncaught
exception is the File Ingestion Record inserted (line 262). -/
def processFile (u : Utils) (f : InputFile) (st : RunState) : RunState × Option PyErr :=
  if st.sources.any (fun s => s.filename == f.name) then (st, none)
  else
    match selectRows f with
    | none => ({ st with logs := st.logs ++ [(f.name, [headerRow])] }, none)
    | some (.error e) => ({ st with logs := st.logs ++ [(f.name, [headerRow])] }, some e)
    | some (.ok rows) =>
      match processRows u (get_data_source f.name) rows initAcc with
      | (acc, some e) =>
        ({ st with logs := st.logs ++ [(f.name, headerRow :: acc.logRows)],
                   cleanq := st.cleanq ++ acc.newClean,
                   dirtyq := st.dirtyq ++ acc.newDirty }, some e)
      | (acc, none) =>
        ({ st with logs := st.logs ++ [(f.name, headerRow :: acc.logRows)],
                   cleanq := st.cleanq ++ acc.newClean,
                   dirtyq := st.dirtyq ++ acc.newDirty,
                   sources := st.sources ++
                     [⟨f.name, f.ext, acc.invalid_ctr, acc.clean_ctr, acc.dirty_ctr⟩] },
         none)

/-- The per-file loop of run (lines 208-265): files in order, stopping at
the first uncaught exception. -/
def runLoop (u : Utils) : List InputFile → RunState → RunState × Option PyErr
  | [], st => (st, none)
  | f :: rest, st =>
    match processFile u f st with
    | (st1, none) => runLoop u rest st1
    | (st1, some e) => (st1, some e)

/-- run (lines 160-280).  Indices are dropped first (lines 168-169), the
per-file loop runs, and then line 268 evaluates validq.join().  The name
validq is not defined anywhere (only a commented-out validThread mentions
a similarly named queue), so reaching line 268 raises a NameError: the
joins of the dirty and clean queues (lines 269-270) and the index rebuild
(lines 278-279) are never executed. -/
def run (u : Utils) (files : List InputFile) (st : RunState) : RunState × Option PyErr :=
  match runLoop u files { st with cleanIndices := false, dirtyIndices := false } with
  | (st1, none) => (st1, some (.nameError "name validq is not defined"))
  | (st1, some e) => (st1, some e)

/-- Modelled from the spec: the domain validity predicates of the
excluded collaborator pyrate.utils.  The spec fixes only their signatures
and gives one numeric example (a speed-over-ground of 102.5 is out of the
valid range 0 to 102.2); the remaining thresholds are the standard AIS
domain ranges, and every predicate rejects at least the values the spec
requires it to.  Used to instantiate the parametric theorems on concrete
inputs. -/
def specUtils : Utils where
  valid_mmsi := fun o => o.isSome
  valid_message_id := fun o =>
    match o with
    | some m => decide (1 ≤ m ∧ m ≤ 27)
    | none => false
  valid_imo := fun _ => true
  valid_longitude := fun o =>
    match o with
    | some x => PyFloat.le ⟨-180, 0⟩ x && PyFloat.le x ⟨180, 0⟩
    | none => false
  valid_latitude := fun o =>
    match o with
    | some x => PyFloat.le ⟨-90, 0⟩ x && PyFloat.le x ⟨90, 0⟩
    | none => false
  valid_navigational_status := fun n => decide (0 ≤ n ∧ n ≤ 15)
  is_valid_sog := fun x => PyFloat.le ⟨0, 0⟩ x && PyFloat.le x ⟨1022, 1⟩
  is_valid_cog := fun x => PyFloat.le ⟨0, 0⟩ x && PyFloat.lt x ⟨360, 0⟩
  is_valid_heading := fun x => PyFloat.le ⟨0, 0⟩ x && PyFloat.lt x ⟨360, 0⟩

/-- The full schema header of a well-formed csv file. -/
def fullHeader : List String := AIS_CSV_COLUMNS

/-- A fresh run state: empty sources table, empty queues, indices in
place. -/
def initState : RunState := ⟨[], [], [], [], true, true⟩

/-! ### Concrete fixtures used by witnesses and counterexamples -/

/-- A csv data line whose MMSI field is empty (a null vessel identifier)
and whose speed-over-ground is the out-of-range 102.5 of the spec's own
example. -/
def cexLine : List String :=
  ["", "20160101_120000", "5", "0", "102.5", "0", "0", "0", "0",
   "", "", "", "", "", "", "", ""]

def cexFile : InputFile := ⟨"cex.csv", ".csv", .csv fullHeader [cexLine]⟩

/-- The typed record the dispatcher builds from cexLine and routes to the
dirty queue. -/
def cexDirtyRow : TypedRow :=
  ⟨none, ⟨2016, 1, 1, 12, 0, 0⟩, some 5, some 0, some ⟨1025, 1⟩, some ⟨0, 0⟩,
   some ⟨0, 0⟩, some ⟨0, 0⟩, some ⟨0, 0⟩, none, none, "", "", none, none, none,
   none, some 0⟩

/-- An XML file holding one record in which only the mmsi field occurs. -/
def xmlMissingFile : InputFile :=
  ⟨"m.xml", ".xml", .xml [("mmsi", some "227006760"), ("aismessage", none)]⟩

/-- A csv file whose header lacks the Heading column (the spec's own
example of a header mismatch). -/
def badHeaderFile : InputFile :=
  ⟨"bad.csv", ".csv", .csv (fullHeader.filter (fun c => c != HEADING)) []⟩

/-- A well-formed csv file with no data lines. -/
def goodEmptyFile : InputFile := ⟨"good.csv", ".csv", .csv fullHeader []⟩

/-- A complete raw record whose Destination text is 256 characters long;
every other field is well formed. -/
def longDestRow : RawRow :=
  [(MMSI, "227006760"), (TIME, "20160101_120000"), (MESSAGE_ID, "5"),
   (NAV_STATUS, "0"), (SOG, "10.5"), (LONGITUDE, "0"), (LATITUDE, "0"),
   (COG, "0"), (HEADING, "0"), (IMO, ""), (DRAUGHT, ""),
   (DEST, String.mk (List.replicate 256 'x')), (VESSEL_NAME, ""),
   (ETA_MONTH, ""), (ETA_DAY, ""), (ETA_HOUR, ""), (ETA_MINUTE, "")]

/-- A typed record with message type 5 (outside the position-bearing set)
and non-null position fields. -/
def row5 : TypedRow :=
  ⟨some 227006760, ⟨2016, 1, 1, 12, 0, 0⟩, some 5, some 0, some ⟨10, 0⟩,
   some ⟨1, 0⟩, some ⟨2, 0⟩, some ⟨0, 0⟩, some ⟨0, 0⟩, none, none, "", "",
   none, none, none, none, some 0⟩

/-- The validated record produced from row5: position forced to null,
every soft field passing its check. -/
def wRes : TypedRow :=
  ⟨some 227006760, ⟨2016, 1, 1, 12, 0, 0⟩, some 5, some 0, some ⟨10, 0⟩,
   none, none, some ⟨0, 0⟩, some ⟨0, 0⟩, none, none, "", "",
   none, none, none, none, some 0⟩

/-- A state whose sources table already has a File Ingestion Record for
the file name old.csv. -/
def skipState : RunState :=
  ⟨[⟨"old.csv", ".csv", 0, 3, 1⟩], [], [], [], true, true⟩

def skipFile : InputFile := ⟨"old.csv", ".csv", .csv fullHeader [cexLine]⟩

/-! ### Helper lemmas -/

theorem validate_row_isOk (u : Utils) (row : TypedRow) :
    isOkE (validate_row u row) =
      (u.valid_mmsi row.mmsi && u.valid_message_id row.message_id && check_imo u row.imo &&
       (!(inContainsLatLon row.message_id) ||
        (u.valid_longitude row.longitude && u.valid_latitude row.latitude))) := by
  unfold validate_row
  cases h1 : u.valid_mmsi row.mmsi <;>
    cases h2 : u.valid_message_id row.message_id <;>
      cases h3 : check_imo u row.imo <;>
        cases h4 : inContainsLatLon row.message_id <;>
          cases h5 : u.valid_longitude row.longitude <;>
            cases h6 : u.valid_latitude row.latitude <;>
              simp [isOkE, h1, h2, h3, h4, h5, h6]

theorem validate_row_ok_shape (u : Utils) (row r' : TypedRow)
    (h : validate_row u row = .ok r') :
    r' = soft_checks u
      (if inContainsLatLon row.message_id then row
       else { row with longitude := none, latitude := none }) := by
  unfold validate_row at h
  split at h
  · simp at h
  · split at h
    · rename_i h4
      split at h
      · simp at h
      · simp only [h4, if_true]
        simp only [Except.ok.injEq] at h
        exact h.symm
    · rename_i h4
      simp only [h4, if_false]
      simp only [Except.ok.injEq] at h
      exact h.symm

theorem soft_checks_source (u : Utils) (row : TypedRow) :
    (soft_checks u row).source = row.source := rfl

theorem validate_row_source (u : Utils) (row r' : TypedRow)
    (h : validate_row u row = .ok r') : r'.source = row.source := by
  rw [validate_row_ok_shape u row r' h]
  cases h4 : inContainsLatLon row.message_id <;> simp [h4, soft_checks_source]

theorem check_imo_false_iff (u : Utils) (o : Option Int) :
    check_imo u o = false ↔ ∃ i, o = some i ∧ u.valid_imo i = false := by
  cases o <;> simp [check_imo]

theorem inContainsLatLon_true_iff (o : Option Int) :
    inContainsLatLon o = true ↔ ∃ m, o = some m ∧ m ∈ CONTAINS_LAT_LON := by
  cases o <;> simp [inContainsLatLon, List.elem_iff]

theorem list_index_eq_none_iff (l : List String) (c : String) :
    list_index l c = none ↔ c ∉ l := by
  induction l with
  | nil => simp [list_index]
  | cons x xs ih =>
    by_cases hx : x = c
    · simp [list_index, hx]
    · simp [list_index, beq_iff_eq, hx, ih, Ne.symm hx]

theorem buildIndices_error_of_missing (header : List String) (cols : List String)
    (h : ∃ c ∈ cols, c ∉ header) :
    ∃ m, buildIndices header cols = .error (.runtimeError m) := by
  induction cols with
  | nil => simp at h
  | cons c rest ih =>
    by_cases hc : c ∈ header
    · have hne : list_index header c ≠ none := fun hn =>
        ((list_index_eq_none_iff header c).mp hn) hc
      obtain ⟨i, hi⟩ := Option.ne_none_iff_exists'.mp hne
      obtain ⟨c', hc', hnotc'⟩ := h
      rcases List.mem_cons.mp hc' with rfl | hmem
      · exact absurd hc hnotc'
      · obtain ⟨m, hm⟩ := ih ⟨c', hmem, hnotc'⟩
        exact ⟨m, by simp [buildIndices, hi, hm]⟩
    · have hn : list_index header c = none := (list_index_eq_none_iff header c).mpr hc
      exact ⟨"Missing columns in file header: " ++ c ++ " is not in list",
        by simp [buildIndices, hn]⟩

theorem processFile_indices (u : Utils) (f : InputFile) (st : RunState) :
    (processFile u f st).1.cleanIndices = st.cleanIndices ∧
    (processFile u f st).1.dirtyIndices = st.dirtyIndices := by
  unfold processFile
  split
  · exact ⟨rfl, rfl⟩
  · split
    · exact ⟨rfl, rfl⟩
    · exact ⟨rfl, rfl⟩
    · split
      · exact ⟨rfl, rfl⟩
      · exact ⟨rfl, rfl⟩

theorem runLoop_indices (u : Utils) (files : List InputFile) (st : RunState) :
    (runLoop u files st).1.cleanIndices = st.cleanIndices ∧
    (runLoop u files st).1.dirtyIndices = st.dirtyIndices := by
  induction files generalizing st with
  | nil => exact ⟨rfl, rfl⟩
  | cons f rest ih =>
    obtain ⟨h1, h2⟩ := processFile_indices u f st
    rcases hpf : processFile u f st with ⟨st1, err⟩
    rw [hpf] at h1 h2
    cases err with
    | none =>
      simp only [runLoop, hpf]
      obtain ⟨i1, i2⟩ := ih st1
      exact ⟨i1.trans h1, i2.trans h2⟩
    | some e =>
      simp only [runLoop, hpf]
      exact ⟨h1, h2⟩

theorem processRows_source (u : Utils) (src : Int) (rows : List (Except PyErr RawRow)) :
    ∀ acc : FileAcc,
      (∀ r ∈ acc.newClean, r.source = some src) →
      (∀ r ∈ acc.newDirty, r.source = some src) →
      (∀ r ∈ (processRows u src rows acc).1.newClean, r.source = some src) ∧
      (∀ r ∈ (processRows u src rows acc).1.newDirty, r.source = some src) := by
  induction rows with
  | nil => intro acc h1 h2; exact ⟨h1, h2⟩
  | cons item rest ih =>
    intro acc h1 h2
    match item with
    | .error e => exact ⟨h1, h2⟩
    | .ok raw =>
      simp only [processRows]
      cases hp : parse_raw_row raw with
      | error e =>
        dsimp only
        cases he : isValueError e
        · simp only [he, Bool.false_eq_true, if_false]
          exact ⟨h1, h2⟩
        · simp only [he, if_true]
          cases hl : logCells raw with
          | ok cells =>
            dsimp only
            exact ih _ h1 h2
          | error ke =>
            dsimp only
            exact ⟨h1, h2⟩
      | ok conv0 =>
        dsimp only
        cases hv : validate_row u { conv0 with source := some src } with
        | ok v =>
          dsimp only
          apply ih
          · intro r hr
            rcases List.mem_append.mp hr with hr | hr
            · exact h1 r hr
            · rw [List.mem_singleton.mp hr]
              have hs := validate_row_source u _ v hv
              simpa using hs
          · exact h2
        | error e =>
          dsimp only
          apply ih
          · exact h1
          · intro r hr
            rcases List.mem_append.mp hr with hr | hr
            · exact h2 r hr
            · rw [List.mem_singleton.mp hr]

theorem processFile_source (u : Utils) (f : InputFile) (st : RunState)
    (h1 : ∀ r ∈ st.cleanq, r.source = some 0)
    (h2 : ∀ r ∈ st.dirtyq, r.source = some 0) :
    (∀ r ∈ (processFile u f st).1.cleanq, r.source = some 0) ∧
    (∀ r ∈ (processFile u f st).1.dirtyq, r.source = some 0) := by
  unfold processFile
  split
  · exact ⟨h1, h2⟩
  · split
    · exact ⟨h1, h2⟩
    · exact ⟨h1, h2⟩
    · rename_i rows hsel
      have hsrc := processRows_source u (get_data_source f.name) rows initAcc
        (by intro r hr; simp [initAcc] at hr) (by intro r hr; simp [initAcc] at hr)
      split
      · rename_i acc e hpr
        rw [hpr] at hsrc
        have hz : get_data_source f.name = 0 := rfl
        constructor
        · intro r hr
          rcases List.mem_append.mp hr with hr | hr
          · exact h1 r hr
          · have := hsrc.1 r hr
            rwa [hz] at this
        · intro r hr
          rcases List.mem_append.mp hr with hr | hr
          · exact h2 r hr
          · have := hsrc.2 r hr
            rwa [hz] at this
      · rename_i acc hpr
        rw [hpr] at hsrc
        have hz : get_data_source f.name = 0 := rfl
        constructor
        · intro r hr
          rcases List.mem_append.mp hr with hr | hr
          · exact h1 r hr
          · have := hsrc.1 r hr
            rwa [hz] at this
        · intro r hr
          rcases List.mem_append.mp hr with hr | hr
          · exact h2 r hr
          · have := hsrc.2 r hr
            rwa [hz] at this

theorem runLoop_source (u : Utils) (files : List InputFile) (st : RunState)
    (h1 : ∀ r ∈ st.cleanq, r.source = some 0)
    (h2 : ∀ r ∈ st.dirtyq, r.source = some 0) :
    (∀ r ∈ (runLoop u files st).1.cleanq, r.source = some 0) ∧
    (∀ r ∈ (runLoop u files st).1.dirtyq, r.source = some 0) := by
  induction files generalizing st with
  | nil => exact ⟨h1, h2⟩
  | cons f rest ih =>
    obtain ⟨g1, g2⟩ := processFile_source u f st h1 h2
    rcases hpf : processFile u f st with ⟨st1, err⟩
    rw [hpf] at g1 g2
    cases err with
    | none =>
      simp only [runLoop, hpf]
      exact ih st1 g1 g2
    | some e =>
      simp only [runLoop, hpf]
      exact ⟨g1, g2⟩

/-! ### Claim theorems -/

/-- C1 (code_bug): the completion step is never reached.  Whenever the
per-file loop finishes without an uncaught exception, run raises a
NameError at line 268 — the name validq is undefined — before joining the
dirty and clean queues and before rebuilding the indices, which therefore
stay dropped. -/
theorem claim_run_never_rebuilds (u : Utils) (files : List InputFile) (st : RunState)
    (h : (runLoop u files { st with cleanIndices := false, dirtyIndices := false }).2 = none) :
    run u files st =
      ((runLoop u files { st with cleanIndices := false, dirtyIndices := false }).1,
        some (.nameError "name validq is not defined")) ∧
    (run u files st).1.cleanIndices = false ∧
    (run u files st).1.dirtyIndices = false := by
  have hidx := runLoop_indices u files { st with cleanIndices := false, dirtyIndices := false }
  rcases hl : runLoop u files { st with cleanIndices := false, dirtyIndices := false } with ⟨st1, err⟩
  rw [hl] at h hidx
  cases err with
  | some e => simp at h
  | none =>
    have hrun : run u files st = (st1, some (.nameError "name validq is not defined")) := by
      unfold run
      rw [hl]
    exact ⟨hrun, by rw [hrun]; exact hidx.1, by rw [hrun]; exact hidx.2⟩

/-- Witness for C1: the empty run reaches the completion step and dies
with the NameError, its indices still dropped. -/
theorem claim_run_never_rebuilds_wit :
    (runLoop specUtils [] { initState with cleanIndices := false, dirtyIndices := false }).2
        = none ∧
    (run specUtils [] initState =
      ((runLoop specUtils [] { initState with cleanIndices := false, dirtyIndices := false }).1,
        some (.nameError "name validq is not defined")) ∧
    (run specUtils [] initState).1.cleanIndices = false ∧
    (run specUtils [] initState).1.dirtyIndices = false) :=
  ⟨rfl, claim_run_never_rebuilds specUtils [] initState rfl⟩

/-- C2 (counterexample): a run over a csv file whose header lacks the
Heading column followed by a well-formed file does not continue with the
remaining files: the RuntimeError escapes the per-file loop, the run
aborts, and no File Ingestion Record is written for either file — the
second file is never opened. -/
theorem claim_header_counterexample :
    (run specUtils [badHeaderFile, goodEmptyFile] initState).2 =
      some (.runtimeError "Missing columns in file header: Heading is not in list") ∧
    (run specUtils [badHeaderFile, goodEmptyFile] initState).1.sources = [] ∧
    (run specUtils [badHeaderFile, goodEmptyFile] initState).1.logs =
      [("bad.csv", [headerRow])] := by
  decide

/-- C2 (amended): for a not-yet-ingested delimited-text file whose header
misses an expected schema column, the reader fails fatally with a
RuntimeError before any record is produced: nothing is ingested from the
file, no File Ingestion Record is written for it, only the error-log
header has been emitted — and the error aborts the whole per-file loop,
so the remaining files are not processed. -/
theorem claim_header_mismatch_aborts (u : Utils) (fname : String) (header : List String)
    (lines : List (List String)) (rest : List InputFile) (st : RunState)
    (hnew : st.sources.any (fun s => s.filename == fname) = false)
    (hmiss : ∃ c ∈ AIS_CSV_COLUMNS, c ∉ header) :
    ∃ m, runLoop u (⟨fname, ".csv", .csv header lines⟩ :: rest) st =
      ({ st with logs := st.logs ++ [(fname, [headerRow])] }, some (.runtimeError m)) := by
  obtain ⟨m, hm⟩ := buildIndices_error_of_missing header AIS_CSV_COLUMNS hmiss
  refine ⟨m, ?_⟩
  have hsel : selectRows ⟨fname, ".csv", .csv header lines⟩ =
      some (.error (.runtimeError m)) := by
    simp [selectRows, readcsv, hm]
  have hpf : processFile u ⟨fname, ".csv", .csv header lines⟩ st =
      ({ st with logs := st.logs ++ [(fname, [headerRow])] }, some (.runtimeError m)) := by
    unfold processFile
    rw [if_neg (by simp [hnew])]
    rw [hsel]
  simp only [runLoop, hpf]

/-- Witness for the amended C2. -/
theorem claim_header_mismatch_aborts_wit :
    (initState.sources.any (fun s => s.filename == "bad.csv") = false) ∧
    (∃ c ∈ AIS_CSV_COLUMNS, c ∉ fullHeader.filter (fun c => c != HEADING)) ∧
    (∃ m, runLoop specUtils
        [⟨"bad.csv", ".csv", .csv (fullHeader.filter (fun c => c != HEADING)) []⟩] initState =
      ({ initState with logs := initState.logs ++ [("bad.csv", [headerRow])] },
        some (.runtimeError m))) :=
  ⟨by decide, by decide,
    claim_header_mismatch_aborts specUtils "bad.csv"
      (fullHeader.filter (fun c => c != HEADING)) [] [] initState (by decide) (by decide)⟩

/-- C3 (code_bug): a raw record produced by the XML reader with a missing
schema key is not treated as null-equivalent empty text and is not a
contained parse failure: parse_raw_row raises a KeyError, which is not a
ValueError, so the dispatcher does not catch it — the file aborts with an
uncontained error, nothing is enqueued and no File Ingestion Record is
written. -/
theorem claim_missing_key_uncontained :
    readxml [("mmsi", some "227006760"), ("aismessage", none)] = [[(MMSI, "227006760")]] ∧
    parse_raw_row [(MMSI, "227006760")] = .error (.keyError "Time") ∧
    isValueError (.keyError "Time") = false ∧
    (processFile specUtils xmlMissingFile initState).2 = some (.keyError "Time") ∧
    (processFile specUtils xmlMissingFile initState).1.sources = [] ∧
    (processFile specUtils xmlMissingFile initState).1.cleanq = [] ∧
    (processFile specUtils xmlMissingFile initState).1.dirtyq = [] := by
  decide

set_option maxRecDepth 8192 in
/-- C4 (code_bug): the bounded-string converter does not truncate an
over-long string to 254 characters; it raises an AttributeError, because
the source calls the non-existent method substring.  Strings of length
at most 255 are returned unchanged. -/
theorem claim_longstr_broken :
    longstr (String.mk (List.replicate 256 'a')) =
      .error (.attributeError "str object has no attribute substring") ∧
    (String.mk (List.replicate 256 'a')).length = 256 ∧
    (∀ s : String, s.length ≤ 255 → longstr s = .ok s) := by
  refine ⟨by decide, by decide, ?_⟩
  intro s hs
  have hlt : ¬ s.length > 255 := by omega
  simp [longstr, hlt]

/-- Witness for the universally quantified part of C4. -/
theorem claim_longstr_broken_wit :
    ("abc" : String).length ≤ 255 ∧ longstr "abc" = .ok "abc" :=
  ⟨by decide, claim_longstr_broken.2.2 "abc" (by decide)⟩

set_option maxRecDepth 8192 in
/-- C5 (code_bug): a complete raw record whose Destination field is 256
characters long makes a field converter fail, yet parse does not fail
with the contained ValueError the dispatcher catches: it raises an
AttributeError, which escapes the record loop without logging the record
or counting it invalid. -/
theorem claim_parse_uncontained :
    parse_raw_row longDestRow =
      .error (.attributeError "str object has no attribute substring") ∧
    isValueError (.attributeError "str object has no attribute substring") = false ∧
    processRows specUtils 0 [.ok longDestRow] initAcc =
      (initAcc, some (.attributeError "str object has no attribute substring")) := by
  decide

/-- C6 (confirmed): validation fails exactly when the vessel identifier
check fails, or the message-type check fails, or the registry number is
non-null and fails its check, or the message type is in the
position-bearing set and longitude or latitude fails its check. -/
theorem claim_validation_failure_iff (u : Utils) (row : TypedRow) :
    isOkE (validate_row u row) = false ↔
      (u.valid_mmsi row.mmsi = false ∨
       u.valid_message_id row.message_id = false ∨
       (∃ i, row.imo = some i ∧ u.valid_imo i = false) ∨
       ((∃ m, row.message_id = some m ∧ m ∈ CONTAINS_LAT_LON) ∧
        (u.valid_longitude row.longitude = false ∨
         u.valid_latitude row.latitude = false))) := by
  rw [validate_row_isOk, ← check_imo_false_iff, ← inContainsLatLon_true_iff]
  cases h1 : u.valid_mmsi row.mmsi <;>
    cases h2 : u.valid_message_id row.message_id <;>
      cases h3 : check_imo u row.imo <;>
        cases h4 : inContainsLatLon row.message_id <;>
          cases h5 : u.valid_longitude row.longitude <;>
            cases h6 : u.valid_latitude row.latitude <;>
              simp [h1, h2, h3, h4, h5, h6]

/-- C7 (confirmed): for a message type outside the position-bearing set,
any successful validation returns longitude and latitude forced to null,
and rejection is equivalent to the identifier, message-type or registry
checks failing — position validity plays no part. -/
theorem claim_position_forced_null (u : Utils) (row : TypedRow)
    (h : inContainsLatLon row.message_id = false) :
    (∀ r', validate_row u row = .ok r' → r'.longitude = none ∧ r'.latitude = none) ∧
    (isOkE (validate_row u row) = false ↔
      (u.valid_mmsi row.mmsi = false ∨
       u.valid_message_id row.message_id = false ∨
       (∃ i, row.imo = some i ∧ u.valid_imo i = false))) := by
  constructor
  · intro r' hr'
    rw [validate_row_ok_shape u row r' hr', h]
    simp [soft_checks]
  · rw [validate_row_isOk, ← check_imo_false_iff, h]
    cases h1 : u.valid_mmsi row.mmsi <;>
      cases h2 : u.valid_message_id row.message_id <;>
        cases h3 : check_imo u row.imo <;>
          simp [h1, h2, h3]

/-- Witness for C7 at a concrete record with message type 5 and non-null
position fields. -/
theorem claim_position_forced_null_wit :
    (inContainsLatLon row5.message_id = false) ∧
    ((∀ r', validate_row specUtils row5 = .ok r' →
        r'.longitude = none ∧ r'.latitude = none) ∧
     (isOkE (validate_row specUtils row5) = false ↔
      (specUtils.valid_mmsi row5.mmsi = false ∨
       specUtils.valid_message_id row5.message_id = false ∨
       (∃ i, row5.imo = some i ∧ specUtils.valid_imo i = false)))) :=
  ⟨by decide, claim_position_forced_null specUtils row5 (by decide)⟩

/-- C8 (counterexample): a typed record rejected by validation is routed
to the dirty queue unchanged — its non-null, out-of-range speed-over-
ground is not set to null, against the claim that soft nulling applies to
rejected records too. -/
theorem claim_soft_null_counterexample :
    isOkE (validate_row specUtils cexDirtyRow) = false ∧
    (processFile specUtils cexFile initState).1.dirtyq = [cexDirtyRow] ∧
    cexDirtyRow.sog = some ⟨1025, 1⟩ ∧
    specUtils.is_valid_sog ⟨1025, 1⟩ = false := by
  decide

/-- C8 (amended): for every typed record accepted by validation, each of
the four optional fields that is non-null and fails its check is
individually set to null, and every other field except the possibly
forced longitude and latitude is returned unchanged. -/
theorem claim_soft_null_on_success (u : Utils) (row r' : TypedRow)
    (h : validate_row u row = .ok r') :
    r' = { row with
      longitude := if inContainsLatLon row.message_id then row.longitude else none,
      latitude := if inContainsLatLon row.message_id then row.latitude else none,
      nav_status := set_null_on_fail row.nav_status u.valid_navigational_status,
      sog := set_null_on_fail row.sog u.is_valid_sog,
      cog := set_null_on_fail row.cog u.is_valid_cog,
      heading := set_null_on_fail row.heading u.is_valid_heading } := by
  rw [validate_row_ok_shape u row r' h]
  cases h4 : inContainsLatLon row.message_id <;> simp [h4, soft_checks]

/-- Witness for the amended C8 at a concrete accepted record. -/
theorem claim_soft_null_on_success_wit :
    (validate_row specUtils row5 = .ok wRes) ∧
    wRes = { row5 with
      longitude := if inContainsLatLon row5.message_id then row5.longitude else none,
      latitude := if inContainsLatLon row5.message_id then row5.latitude else none,
      nav_status := set_null_on_fail row5.nav_status specUtils.valid_navigational_status,
      sog := set_null_on_fail row5.sog specUtils.is_valid_sog,
      cog := set_null_on_fail row5.cog specUtils.is_valid_cog,
      heading := set_null_on_fail row5.heading specUtils.is_valid_heading } :=
  ⟨by decide, claim_soft_null_on_success specUtils row5 wRes (by decide)⟩

/-- C9 (confirmed): a file whose name already has a File Ingestion Record
is skipped before anything else happens: the dispatcher state is returned
unchanged — nothing parsed, both queues untouched, counters never
created, no error log opened and no new File Ingestion Record — and no
error is raised. -/
theorem claim_skip_already_ingested (u : Utils) (f : InputFile) (st : RunState)
    (h : st.sources.any (fun s => s.filename == f.name) = true) :
    processFile u f st = (st, none) := by
  simp [processFile, h]

/-- Witness for C9. -/
theorem claim_skip_already_ingested_wit :
    (skipState.sources.any (fun s => s.filename == skipFile.name) = true) ∧
    processFile specUtils skipFile skipState = (skipState, none) :=
  ⟨by decide, claim_skip_already_ingested specUtils skipFile skipState (by decide)⟩

/-- C10 (confirmed): the data-source inference returns 0 for every file
name, and consequently every record a run adds to either queue carries
the provenance tag 0. -/
theorem claim_source_tag_zero :
    (∀ fname : String, get_data_source fname = 0) ∧
    (∀ (u : Utils) (files : List InputFile) (st : RunState),
      (∀ r ∈ st.cleanq, r.source = some 0) →
      (∀ r ∈ st.dirtyq, r.source = some 0) →
      (∀ r ∈ (run u files st).1.cleanq, r.source = some 0) ∧
      (∀ r ∈ (run u files st).1.dirtyq, r.source = some 0)) := by
  refine ⟨fun _ => rfl, ?_⟩
  intro u files st h1 h2
  unfold run
  have hsrc := runLoop_source u files
    { st with cleanIndices := false, dirtyIndices := false } h1 h2
  rcases hl : runLoop u files { st with cleanIndices := false, dirtyIndices := false }
    with ⟨st1, err⟩
  rw [hl] at hsrc
  cases err <;> exact hsrc

/-- Witness for C10: the record the cexFile run enqueues dirty carries
source tag 0. -/
theorem claim_source_tag_zero_wit :
    cexDirtyRow ∈ (run specUtils [cexFile] initState).1.dirtyq ∧
    cexDirtyRow.source = some 0 :=
  ⟨by decide,
    (claim_source_tag_zero.2 specUtils [cexFile] initState
      (fun r hr => absurd hr (List.not_mem_nil r))
      (fun r hr => absurd hr (List.not_mem_nil r))).2 cexDirtyRow (by decide)⟩

end Pyrate
